import Mathlib

/-!
Shallow embedding of the `simboraa-agente` integration agent, covering the
two behavioural cores of the program: the change-detection/publish loop with
its persisted cursor (`getLastSyncTime`, `updateLastSyncTime`,
`monitorarMudancas`, the `setInterval` tick discipline) and the
`/criar-pedido` order-ingestion transaction (sku resolution, id/sequence
allocation, header and line inserts, commit/rollback).

The repository holds two variants of the program: `src/unnamed/part_000`
(cursor file, request validation, `UPDLOCK/HOLDLOCK` allocation read) and
`src/agente.js` (fixed five-second detection window, no validation, plain
`MAX` allocation read).  Both are embedded; definitions shared verbatim by
the two variants are defined once and reused.

Numeric database columns (money, quantities, stock) are embedded as `ℚ`,
timestamps as `ℤ` milliseconds since the epoch.
-/

set_option maxRecDepth 8000
set_option allowUnsafeReducibility true
attribute [local semireducible] Rat.add Rat.mul Rat.sub Rat.div

namespace Agente

/-! ## Timestamps and the JavaScript `Date` -/

/-- Result of `new Date(x)` in JavaScript: either a valid instant (in
milliseconds) or the Invalid Date value produced by an unparseable input. -/
inductive JsDate
  | invalid
  | valid (ms : ℤ)
deriving DecidableEq, Repr

/-- The observable states of `cursor.json` as `getLastSyncTime` reads it:
missing file, a file whose read or `JSON.parse` throws, or a parsed JSON
object whose `lastSync` field was converted by `new Date(...)` (possibly to
an Invalid Date). -/
inductive CursorFile
  | absent
  | unreadable
  | parsed (lastSync : JsDate)
deriving DecidableEq, Repr

/-- `part_000` lines 39-49: read the cursor file; on a missing file or a
read/parse exception fall back to one minute before `now`. A file that
parses as JSON has its `lastSync` field passed to `new Date`, whose result
is returned as-is. -/
def getLastSyncTime (file : CursorFile) (now : ℤ) : JsDate :=
  match file with
  | .absent => .valid (now - 60000)
  | .unreadable => .valid (now - 60000)
  | .parsed d => d

/-- `part_000` lines 51-57: persist `{ lastSync: date.toISOString() }`;
a failed write is caught and logged, leaving the previous file in place. -/
def updateLastSyncTime (file : CursorFile) (writeOk : Bool) (t : ℤ) : CursorFile :=
  if writeOk then .parsed (.valid t) else file

/-! ## Change detection (the sync query) -/

/-- A row of the `PRODUTOS` table, the columns this program touches. -/
structure ProdRow where
  codigo : ℤ
  cbarra : Option String
  nome : String
  pcoVenda : ℚ
  dataAlteracao : ℤ
deriving DecidableEq, Repr

/-- A row of the `PRODLOJAS` table, the columns this program touches. -/
structure LojaRow where
  codigo : ℤ
  estAtual : ℚ
  pcoVenda : ℚ
deriving DecidableEq, Repr

/-- One element of the `updates` batch sent to the site. -/
structure ProductUpdate where
  sku : String
  name : String
  total_stock : ℚ
  price : ℚ
deriving DecidableEq, Repr

/-- `CASE WHEN x < 0 THEN 0 ELSE x END`. -/
def clampStock (x : ℚ) : ℚ := if x < 0 then 0 else x

/-- SQL `MAX` over a column: `NULL` (`none`) on an empty set. -/
def maxOrNull {α : Type} [Max α] : List α → Option α
  | [] => none
  | x :: xs =>
    some (match maxOrNull xs with
          | none => x
          | some m => Max.max x m)

/-- Lexicographic codepoint comparison of character lists (the order SQL
`MAX` uses over a varchar column, up to collation). -/
def charListLe : List Char → List Char → Bool
  | [], _ => true
  | _ :: _, [] => false
  | a :: as, b :: bs =>
    if a.val.toNat = b.val.toNat then charListLe as bs
    else decide (a.val.toNat < b.val.toNat)

/-- The greater of two strings under the lexicographic codepoint order. -/
def strMax (a b : String) : String := if charListLe a.data b.data then b else a

/-- SQL `MAX` over a varchar column: `NULL` on an empty set. -/
def strMaxOrNull : List String → Option String
  | [] => none
  | x :: xs =>
    some (match strMaxOrNull xs with
          | none => x
          | some m => strMax x m)

/-- The `INNER JOIN PRODLOJAS L ON P.CODIGO = L.CODIGO` restricted to the
product rows passing the `WHERE` predicate `pass`. -/
def joinedRows (pass : ProdRow → Bool) (ps : List ProdRow) (ls : List LojaRow) :
    List (ProdRow × LojaRow) :=
  (ps.filter pass).flatMap fun p =>
    (ls.filter fun l => decide (l.codigo = p.codigo)).map fun l => (p, l)

/-- The distinct `GROUP BY P.CBARRA` keys of the joined rows. -/
def skusOf (rows : List (ProdRow × LojaRow)) : List String :=
  (rows.filterMap fun pr => pr.1.cbarra).dedup

/-- The joined rows of one `GROUP BY` group. -/
def groupOf (pass : ProdRow → Bool) (ps : List ProdRow) (ls : List LojaRow)
    (sku : String) : List (ProdRow × LojaRow) :=
  (joinedRows pass ps ls).filter fun pr => decide (pr.1.cbarra = some sku)

/-- One output row of the sync query: `MAX(P.NOME)`,
`SUM(CASE WHEN L.EST_ATUAL < 0 THEN 0 ELSE L.EST_ATUAL END)`,
`MAX(L.PCO_VENDA)` over the group of `sku`. -/
def aggregate (g : List (ProdRow × LojaRow)) (sku : String) : ProductUpdate :=
  { sku := sku
    name := (strMaxOrNull (g.map fun pr => pr.1.nome)).getD ""
    total_stock := (g.map fun pr => clampStock pr.2.estAtual).sum
    price := (maxOrNull (g.map fun pr => pr.2.pcoVenda)).getD 0 }

/-- The sync `SELECT ... GROUP BY P.CBARRA`, parameterised by the `WHERE`
predicate on product rows (the two variants differ only there). -/
def detectWith (pass : ProdRow → Bool) (ps : List ProdRow) (ls : List LojaRow) :
    List ProductUpdate :=
  (skusOf (joinedRows pass ps ls)).map fun sku =>
    aggregate (groupOf pass ps ls sku) sku

/-- `part_000` lines 94-110: rows with `P.DATA_ALTERACAO > @lastCheck`, sku
present and non-empty. -/
def cursorPass (since : ℤ) (p : ProdRow) : Bool :=
  decide (since < p.dataAlteracao ∧ p.cbarra ≠ none ∧ p.cbarra ≠ some "")

/-- `part_000`'s detection query, driven by the cursor value `since`. -/
def detect (ps : List ProdRow) (ls : List LojaRow) (since : ℤ) : List ProductUpdate :=
  detectWith (cursorPass since) ps ls

/-- `agente.js` lines 39-51: rows with
`P.DATA_ALTERACAO >= DATEADD(second, -5, GETDATE())`, a fixed window ending
at `now`, independent of any cursor. -/
def windowPass (now : ℤ) (p : ProdRow) : Bool :=
  decide (now - 5000 ≤ p.dataAlteracao ∧ p.cbarra ≠ none ∧ p.cbarra ≠ some "")

/-- `agente.js`'s detection query. -/
def detectAgente (ps : List ProdRow) (ls : List LojaRow) (now : ℤ) : List ProductUpdate :=
  detectWith (windowPass now) ps ls

/-! ## One cycle of `monitorarMudancas` (part_000, lines 87-132) -/

/-- Outcome of the detection query as the cycle observes it: a recordset, or
a thrown database error. -/
inductive QueryOutcome
  | ok (batch : List ProductUpdate)
  | dbError
deriving DecidableEq, Repr

/-- One cycle of `part_000`'s `monitorarMudancas`, at the level of its
effects on the persisted cursor file.  `now` is `newCheckTime`, captured at
line 91 before the query runs.  A non-empty batch is published; only a
successful publish (or an empty batch) reaches `updateLastSyncTime`.  Any
thrown error — database or publish — is caught at lines 129-131 leaving the
file untouched. -/
def monitorarMudancas (file : CursorFile) (now : ℤ) (q : QueryOutcome)
    (publishOk writeOk : Bool) : CursorFile :=
  match q with
  | .dbError => file
  | .ok batch =>
    if batch.length > 0 then
      if publishOk then updateLastSyncTime file writeOk now else file
    else updateLastSyncTime file writeOk now

/-! ## The timer loop (`setInterval(monitorarMudancas, ...)`) -/

/-- The loop-relevant state: whether the pool is connected (the only thing
the entry guard at `part_000` line 88 inspects) and how many cycles are
currently in flight. -/
structure LoopState where
  poolConnected : Bool
  inFlight : ℕ
deriving DecidableEq, Repr

/-- Events of the timer loop: a timer tick, the completion of an in-flight
cycle, and pool connection changes. -/
inductive LoopEvent
  | tick
  | cycleEnd
  | connect
  | disconnect
deriving DecidableEq, Repr

/-- The tick discipline of the source: `setInterval` fires regardless of any
in-flight cycle, and `monitorarMudancas` begins work whenever the pool is
connected — its only early return is the pool guard. An in-flight cycle ends
at `cycleEnd`. -/
def loopStep (s : LoopState) : LoopEvent → LoopState
  | .tick => if s.poolConnected then { s with inFlight := s.inFlight + 1 } else s
  | .cycleEnd => { s with inFlight := s.inFlight - 1 }
  | .connect => { s with poolConnected := true }
  | .disconnect => { s with poolConnected := false }

/-- A run of the loop over a list of events. -/
def loopRun (s : LoopState) (evs : List LoopEvent) : LoopState :=
  evs.foldl loopStep s

/-! ## Order ingestion (`POST /criar-pedido`) -/

/-- The `cliente` object of the request body (`nome` may be absent). -/
structure Cliente where
  nome : Option String
deriving DecidableEq, Repr

/-- One element of the `itens` array of the request body. -/
structure Item where
  sku : String
  qtd : ℚ
  preco : ℚ
deriving DecidableEq, Repr

/-- The request body `{ cliente, itens }`; either field may be absent. -/
structure OrderRequest where
  cliente : Option Cliente
  itens : Option (List Item)
deriving DecidableEq, Repr

/-- A row of `ORCPERSON` as this program writes it (`EMISSAO` is
`GETDATE()` at insert time). -/
structure OrcRow where
  codigo : ℤ
  codLoja : ℤ
  emissao : ℤ
  nome : String
  codVendedor : ℤ
  totalBruto : ℚ
  totalLiquido : ℚ
  observacao : String
  nomeUsuario : String
  sequencia : ℤ
deriving DecidableEq, Repr

/-- A row of `ORCPERSONI` as this program writes it. -/
structure OrcIRow where
  codigoI : ℤ
  codProduto : ℤ
  descricao : String
  quantidade : ℚ
  unitario : ℚ
  vlTotal : ℚ
  data : ℤ
  item : ℤ
deriving DecidableEq, Repr

/-- The store state the order handlers read and write. -/
structure Db where
  produtos : List ProdRow
  orcperson : List OrcRow
  orcpersoni : List OrcIRow
deriving DecidableEq, Repr

/-- The store operations a handler issues, in order. -/
inductive StoreOp
  | txBegin
  | queryLookup (sku : String)
  | queryIds
  | insertHeader
  | insertLine (n : ℤ)
  | txCommit
  | txRollback
deriving DecidableEq, Repr

/-- The handler's reply: the success body, or an error body with its HTTP
status (400 validation, 422 part_000 processing error, 500 agente.js
processing error). -/
inductive HandlerResult
  | success (pedidoId : ℤ)
  | badRequest (error : String)
  | unprocessable (error detalhe : String)
  | serverError (error detalhe : String)
deriving DecidableEq, Repr

/-- `SELECT TOP 1 CODIGO, NOME, ... FROM PRODUTOS WHERE CBARRA = @sku`:
the first product row whose barcode equals the sku (a `NULL` barcode matches
nothing). -/
def lookupProduto (ps : List ProdRow) (sku : String) : Option ProdRow :=
  ps.find? fun p => decide (p.cbarra = some sku)

/-- The resolution loop over `itens`: look each sku up in order, enriching
the item with the matched row; the first miss throws with that item's sku.
Identical in both variants (part_000 also selects `PCO_VENDA`, which is
never read). -/
def resolveItens (ps : List ProdRow) : List Item → Except String (List (Item × ProdRow))
  | [] => .ok []
  | i :: rest =>
    match lookupProduto ps i.sku with
    | none => .error i.sku
    | some p =>
      match resolveItens ps rest with
      | .error sku => .error sku
      | .ok r => .ok ((i, p) :: r)

/-- The lookup queries the resolution loop issues before it returns or
throws: one per item, stopping at the first miss. -/
def resolveOps (ps : List ProdRow) : List Item → List StoreOp
  | [] => []
  | i :: rest =>
    .queryLookup i.sku ::
      (match lookupProduto ps i.sku with
       | none => []
       | some _ => resolveOps ps rest)

/-- `ISNULL(MAX(CODIGO), 0) + 1` over `ORCPERSON`. -/
def proximoId (rows : List OrcRow) : ℤ :=
  (maxOrNull (rows.map fun r => r.codigo)).getD 0 + 1

/-- `ISNULL(MAX(SEQUENCIA), 0) + 1` over `ORCPERSON`. -/
def proximaSeq (rows : List OrcRow) : ℤ :=
  (maxOrNull (rows.map fun r => r.sequencia)).getD 0 + 1

/-- `itens.reduce((acc, i) => acc + (i.qtd * i.preco), 0)`. -/
def itensTotal (itens : List Item) : ℚ :=
  itens.foldl (fun acc i => acc + i.qtd * i.preco) 0

/-- part_000 line 203: `cliente.nome ? cliente.nome.substring(0, 50) :
'CLIENTE WEB'` (an absent or empty name is falsy). -/
def nomeCliente000 (c : Cliente) : String :=
  match c.nome with
  | some n => if n = "" then "CLIENTE WEB" else n.take 50
  | none => "CLIENTE WEB"

/-- agente.js line 115: `cliente.nome || 'CLIENTE E-COMMERCE'`
(no truncation). -/
def nomeClienteAg (c : Cliente) : String :=
  match c.nome with
  | some n => if n = "" then "CLIENTE E-COMMERCE" else n
  | none => "CLIENTE E-COMMERCE"

/-- The `ORCPERSONI` insert loop, identical in both variants:
`contadorItem` starts at `k` (the handlers call it with 1) and increments
per line. -/
def mkLinhas (novoId now : ℤ) : ℤ → List (Item × ProdRow) → List OrcIRow
  | _, [] => []
  | k, (i, p) :: rest =>
    { codigoI := novoId
      codProduto := p.codigo
      descricao := p.nome
      quantidade := i.qtd
      unitario := i.preco
      vlTotal := i.qtd * i.preco
      data := now
      item := k } :: mkLinhas novoId now (k + 1) rest

/-- The `ORCPERSON` header row both variants insert, up to the two fields
they disagree on (`NOME` and `NOMEUSUARIO`). -/
def mkHeader (novoId novaSeq now : ℤ) (nome nomeUsuario : String) (total : ℚ) : OrcRow :=
  { codigo := novoId
    codLoja := 1
    emissao := now
    nome := nome
    codVendedor := 1
    totalBruto := total
    totalLiquido := total
    observacao := "PEDIDO VIA SITE"
    nomeUsuario := nomeUsuario
    sequencia := novaSeq }

/-- `part_000` lines 160-239: validate the body (absent `cliente`, absent
`itens` or an empty list are rejected with 400 before any store operation);
then, inside a transaction, resolve every sku (first miss rolls back with a
422 naming that sku), allocate id and sequence from the `UPDLOCK, HOLDLOCK`
locking read, insert the header and one line per item, and commit. -/
def criarPedido (db : Db) (now : ℤ) (req : OrderRequest) :
    Db × List StoreOp × HandlerResult :=
  match req.cliente, req.itens with
  | none, _ => (db, [], .badRequest "Dados inválidos (cliente ou itens ausentes)")
  | some _, none => (db, [], .badRequest "Dados inválidos (cliente ou itens ausentes)")
  | some c, some itens =>
    if itens.isEmpty then
      (db, [], .badRequest "Dados inválidos (cliente ou itens ausentes)")
    else
      match resolveItens db.produtos itens with
      | .error sku =>
        (db, .txBegin :: (resolveOps db.produtos itens ++ [.txRollback]),
          .unprocessable "Não foi possível processar o pedido"
            ("Produto não encontrado ou inativo: " ++ sku))
      | .ok resolved =>
        let novoId := proximoId db.orcperson
        let novaSeq := proximaSeq db.orcperson
        let header := mkHeader novoId novaSeq now (nomeCliente000 c) "INTEGRACAO"
          (itensTotal itens)
        let linhas := mkLinhas novoId now 1 resolved
        ({ db with
            orcperson := db.orcperson ++ [header]
            orcpersoni := db.orcpersoni ++ linhas },
          .txBegin :: (resolveOps db.produtos itens ++
            [.queryIds, .insertHeader] ++ linhas.map (fun r => .insertLine r.item) ++
            [.txCommit]),
          .success novoId)

/-- `agente.js` lines 82-147: no validation — the transaction opens
unconditionally.  An absent `itens` makes the `for..of` throw (rollback,
500); an absent `cliente` throws only when the header insert reads
`cliente.nome`, after the ids query (rollback, 500); an unresolvable sku
rolls back with a 500 naming it; otherwise the same inserts as part_000
with `cliente.nome || 'CLIENTE E-COMMERCE'` (no truncation) and
`NOMEUSUARIO = 'SITE'`, including the empty-`itens` case, which commits a
zero-line order. -/
def criarPedidoAgente (db : Db) (now : ℤ) (req : OrderRequest) :
    Db × List StoreOp × HandlerResult :=
  match req.itens with
  | none =>
    (db, [.txBegin, .txRollback],
      .serverError "Erro ao gravar pedido" "itens is not iterable")
  | some itens =>
    match resolveItens db.produtos itens with
    | .error sku =>
      (db, .txBegin :: (resolveOps db.produtos itens ++ [.txRollback]),
        .serverError "Erro ao gravar pedido" ("Produto não encontrado: " ++ sku))
    | .ok resolved =>
      match req.cliente with
      | none =>
        (db, .txBegin :: (resolveOps db.produtos itens ++ [.queryIds, .txRollback]),
          .serverError "Erro ao gravar pedido"
            "Cannot read properties of undefined (reading 'nome')")
      | some c =>
        let novoId := proximoId db.orcperson
        let novaSeq := proximaSeq db.orcperson
        let header := mkHeader novoId novaSeq now (nomeClienteAg c) "SITE"
          (itensTotal itens)
        let linhas := mkLinhas novoId now 1 resolved
        ({ db with
            orcperson := db.orcperson ++ [header]
            orcpersoni := db.orcpersoni ++ linhas },
          .txBegin :: (resolveOps db.produtos itens ++
            [.queryIds, .insertHeader] ++ linhas.map (fun r => .insertLine r.item) ++
            [.txCommit]),
          .success novoId)

/-! ## Concurrent id/sequence allocation -/

/-- The id-allocation protocol state for two concurrent ingestion
transactions over `ORCPERSON`: the committed `(CODIGO, SEQUENCIA)` pairs,
each transaction's program counter (0 = not begun, 1 = begun, 2 = allocation
read done, 3 = committed), its snapshot of the committed rows when it began,
and the pair its allocation read produced. -/
structure AllocSys where
  rows : List (ℤ × ℤ)
  pc1 : ℕ
  pc2 : ℕ
  snap1 : List (ℤ × ℤ)
  snap2 : List (ℤ × ℤ)
  alloc1 : ℤ × ℤ
  alloc2 : ℤ × ℤ
deriving DecidableEq, Repr

/-- `(ISNULL(MAX(CODIGO),0) + 1, ISNULL(MAX(SEQUENCIA),0) + 1)` over the
committed pairs. -/
def nextPair (rows : List (ℤ × ℤ)) : ℤ × ℤ :=
  ((maxOrNull (rows.map Prod.fst)).getD 0 + 1,
   (maxOrNull (rows.map Prod.snd)).getD 0 + 1)

/-- Interleaved micro-steps of the two transactions.  With `locked = true`
the allocation read carries `WITH (UPDLOCK, HOLDLOCK)` (part_000): it blocks
while the other transaction holds the lock, i.e. has performed its own
allocation read and not yet committed.  With `locked = false` it is the
plain read of agente.js and never blocks. -/
inductive AStep (locked : Bool) : AllocSys → AllocSys → Prop
  | begin1 (s : AllocSys) : s.pc1 = 0 →
      AStep locked s { s with pc1 := 1, snap1 := s.rows }
  | begin2 (s : AllocSys) : s.pc2 = 0 →
      AStep locked s { s with pc2 := 1, snap2 := s.rows }
  | alloc1 (s : AllocSys) : s.pc1 = 1 → (locked = true → s.pc2 ≠ 2) →
      AStep locked s { s with pc1 := 2, alloc1 := nextPair s.rows }
  | alloc2 (s : AllocSys) : s.pc2 = 1 → (locked = true → s.pc1 ≠ 2) →
      AStep locked s { s with pc2 := 2, alloc2 := nextPair s.rows }
  | commit1 (s : AllocSys) : s.pc1 = 2 →
      AStep locked s { s with pc1 := 3, rows := s.alloc1 :: s.rows }
  | commit2 (s : AllocSys) : s.pc2 = 2 →
      AStep locked s { s with pc2 := 3, rows := s.alloc2 :: s.rows }

/-- States reachable from an arbitrary pre-existing order table with neither
transaction begun. -/
inductive AReach (locked : Bool) : AllocSys → Prop
  | init (rows₀ : List (ℤ × ℤ)) :
      AReach locked ⟨rows₀, 0, 0, [], [], (0, 0), (0, 0)⟩
  | step {s s' : AllocSys} : AReach locked s → AStep locked s s' → AReach locked s'

/-- The inductive invariant of the locked (part_000) allocation protocol:
the lock admits at most one transaction between its allocation read and its
commit; snapshots only ever shrink relative to the committed rows; a held
allocation is exactly the next pair of the current rows; a committed
allocation is on record and strictly above its snapshot; and two committed
allocations are distinct in both components. -/
def AllocInv (s : AllocSys) : Prop :=
  ¬(s.pc1 = 2 ∧ s.pc2 = 2) ∧
  (s.pc1 ≠ 0 → ∀ p ∈ s.snap1, p ∈ s.rows) ∧
  (s.pc2 ≠ 0 → ∀ p ∈ s.snap2, p ∈ s.rows) ∧
  (s.pc1 = 2 → s.alloc1 = nextPair s.rows) ∧
  (s.pc2 = 2 → s.alloc2 = nextPair s.rows) ∧
  (s.pc1 = 3 → s.alloc1 ∈ s.rows ∧ ∀ p ∈ s.snap1, p.1 < s.alloc1.1 ∧ p.2 < s.alloc1.2) ∧
  (s.pc2 = 3 → s.alloc2 ∈ s.rows ∧ ∀ p ∈ s.snap2, p.1 < s.alloc2.1 ∧ p.2 < s.alloc2.2) ∧
  (s.pc1 = 3 → s.pc2 = 3 → s.alloc1.1 ≠ s.alloc2.1 ∧ s.alloc1.2 ≠ s.alloc2.2)

/-! ## Concrete fixtures

Small concrete stores and requests used by witnesses and counterexamples. -/

/-- A catalog product: barcode "A", internal code 10, modified at t = 50000. -/
def prodA : ProdRow := ⟨10, some "A", "Prod A", 5, 50000⟩

/-- A location row for `prodA` with stock 7 and price 9. -/
def lojaA : LojaRow := ⟨10, 7, 9⟩

/-- A location row for `prodA` with negative stock -3 and price 11. -/
def lojaNeg : LojaRow := ⟨10, -3, 11⟩

/-- A store with `prodA` in the catalog and no orders. -/
def dbA : Db := ⟨[prodA], [], []⟩

/-- The batch row the sync query produces for `prodA` joined to both
location rows. -/
def uA : ProductUpdate := ⟨"A", "Prod A", 7, 11⟩

/-- A resolvable requested item: sku "A", quantity 2, unit price 10. -/
def itemA2 : Item := ⟨"A", 2, 10⟩

/-- An unresolvable requested item: sku "ZZ". -/
def itemZZ : Item := ⟨"ZZ", 1, 1⟩

/-- A well-formed order request for one resolvable item. -/
def reqA : OrderRequest := ⟨some ⟨some "Joao"⟩, some [itemA2]⟩

/-- An order request with an empty items list. -/
def reqVazio : OrderRequest := ⟨some ⟨some "X"⟩, some []⟩

/-- An order request whose second item has an unresolvable sku. -/
def reqBad : OrderRequest := ⟨some ⟨some "X"⟩, some [itemA2, itemZZ]⟩

/-- An order request whose customer name is the empty string. -/
def reqNomeVazio : OrderRequest := ⟨some ⟨some ""⟩, some [itemA2]⟩

/-- The header row `criarPedido dbA 7 reqA` commits. -/
def headerA : OrcRow := ⟨1, 1, 7, "Joao", 1, 20, 20, "PEDIDO VIA SITE", "INTEGRACAO", 1⟩

/-- The same header as `criarPedidoAgente dbA 7 reqA` commits it. -/
def headerAgA : OrcRow := ⟨1, 1, 7, "Joao", 1, 20, 20, "PEDIDO VIA SITE", "SITE", 1⟩

/-- The line row both handlers commit for `reqA`. -/
def linhaA : OrcIRow := ⟨1, 10, "Prod A", 2, 10, 20, 7, 1⟩

/-- The store after `criarPedido dbA 7 reqA`. -/
def dbPedidoA : Db := ⟨[prodA], [headerA], [linhaA]⟩

/-- The store after `criarPedidoAgente dbA 7 reqA`. -/
def dbPedidoAgA : Db := ⟨[prodA], [headerAgA], [linhaA]⟩

/-- The store operations either handler issues for `reqA`. -/
def opsA : List StoreOp :=
  [.txBegin, .queryLookup "A", .queryIds, .insertHeader, .insertLine 1, .txCommit]

/-- Final state of a locked run: transaction 1 begins, allocates `(1, 1)`
and commits; transaction 2 then begins (snapshotting `[(1, 1)]`), allocates
`(2, 2)` and commits. -/
def sLocked : AllocSys := ⟨[(2, 2), (1, 1)], 3, 3, [], [(1, 1)], (1, 1), (2, 2)⟩

/-- Final state of an unlocked run in which both transactions perform their
allocation read before either commits: both read `(1, 1)` and both commit
it. -/
def sUnlocked : AllocSys := ⟨[(1, 1), (1, 1)], 3, 3, [], [], (1, 1), (1, 1)⟩

/-! ## Helper lemmas -/

theorem maxOrNull_eq_none {α : Type} [Max α] {l : List α} :
    maxOrNull l = none ↔ l = [] := by
  cases l <;> simp [maxOrNull]

theorem maxOrNull_le {l : List ℤ} {m x : ℤ} (hm : maxOrNull l = some m)
    (hx : x ∈ l) : x ≤ m := by
  induction l generalizing m with
  | nil => cases hx
  | cons a as ih =>
    cases has : maxOrNull as with
    | none =>
      have hnil : as = [] := maxOrNull_eq_none.mp has
      subst hnil
      simp [maxOrNull] at hm
      simp at hx
      omega
    | some m' =>
      rw [maxOrNull, has] at hm
      injection hm with hm
      subst hm
      rcases List.mem_cons.mp hx with rfl | hx'
      · exact le_max_left x m'
      · exact le_trans (ih has hx') (le_max_right a m')

theorem lt_nextPair {rows : List (ℤ × ℤ)} {p : ℤ × ℤ} (hp : p ∈ rows) :
    p.1 < (nextPair rows).1 ∧ p.2 < (nextPair rows).2 := by
  have h1 : p.1 ∈ rows.map Prod.fst := List.mem_map_of_mem _ hp
  have h2 : p.2 ∈ rows.map Prod.snd := List.mem_map_of_mem _ hp
  constructor
  · cases hm : maxOrNull (rows.map Prod.fst) with
    | none =>
      rw [maxOrNull_eq_none.mp hm] at h1
      cases h1
    | some m =>
      have := maxOrNull_le hm h1
      simp only [nextPair, hm, Option.getD_some]
      omega
  · cases hm : maxOrNull (rows.map Prod.snd) with
    | none =>
      rw [maxOrNull_eq_none.mp hm] at h2
      cases h2
    | some m =>
      have := maxOrNull_le hm h2
      simp only [nextPair, hm, Option.getD_some]
      omega

theorem map_clamp_sum (l : List ℚ) :
    0 ≤ (l.map clampStock).sum ∧
    (l.map clampStock).sum = (l.filter fun x => decide (0 ≤ x)).sum := by
  induction l with
  | nil => simp
  | cons x xs ih =>
    rcases ih with ⟨ih1, ih2⟩
    by_cases hx : x < 0
    · have hd : decide ((0 : ℚ) ≤ x) = false := decide_eq_false (not_le.mpr hx)
      constructor
      · simpa [clampStock, hx] using ih1
      · simp [clampStock, hx, List.filter_cons, hd, ih2]
    · have hx' : (0 : ℚ) ≤ x := not_lt.mp hx
      have hd : decide ((0 : ℚ) ≤ x) = true := decide_eq_true hx'
      constructor
      · have := add_nonneg hx' ih1
        simpa [clampStock, hx] using this
      · simp [clampStock, hx, List.filter_cons, hd, ih2]

theorem resolveItens_ok_fst {ps : List ProdRow} {itens : List Item}
    {r : List (Item × ProdRow)} (h : resolveItens ps itens = .ok r) :
    r.map Prod.fst = itens := by
  induction itens generalizing r with
  | nil =>
    rw [resolveItens] at h
    injection h with h
    subst h
    rfl
  | cons i rest ih =>
    rw [resolveItens] at h
    cases hl : lookupProduto ps i.sku with
    | none => rw [hl] at h; cases h
    | some p =>
      rw [hl] at h
      cases hr : resolveItens ps rest with
      | error sku => rw [hr] at h; cases h
      | ok r' =>
        rw [hr] at h
        injection h with h
        subst h
        simp [ih hr]

theorem resolveItens_error_of_bad {ps : List ProdRow} {itens : List Item}
    (h : ∃ i ∈ itens, lookupProduto ps i.sku = none) :
    ∃ sku, resolveItens ps itens = .error sku ∧
      ∃ i ∈ itens, i.sku = sku ∧ lookupProduto ps sku = none := by
  induction itens with
  | nil => simp at h
  | cons i rest ih =>
    cases hl : lookupProduto ps i.sku with
    | none =>
      refine ⟨i.sku, ?_, i, List.mem_cons_self i rest, rfl, hl⟩
      rw [resolveItens, hl]
    | some p =>
      have h' : ∃ j ∈ rest, lookupProduto ps j.sku = none := by
        rcases h with ⟨j, hj, hjn⟩
        rcases List.mem_cons.mp hj with rfl | hj'
        · rw [hl] at hjn; cases hjn
        · exact ⟨j, hj', hjn⟩
      rcases ih h' with ⟨sku, he, j, hj, hjs, hjn⟩
      refine ⟨sku, ?_, j, List.mem_cons_of_mem i hj, hjs, hjn⟩
      rw [resolveItens, hl, he]

theorem foldl_add_map_sum (f : Item → ℚ) (l : List Item) (a : ℚ) :
    l.foldl (fun acc i => acc + f i) a = a + (l.map f).sum := by
  induction l generalizing a with
  | nil => simp
  | cons i rest ih =>
    simp only [List.foldl_cons, List.map_cons, List.sum_cons, ih]
    ring

theorem mkLinhas_map_unitario (novoId now k : ℤ) (resolved : List (Item × ProdRow)) :
    (mkLinhas novoId now k resolved).map (fun r => r.unitario) =
      resolved.map fun ip => ip.1.preco := by
  induction resolved generalizing k with
  | nil => rfl
  | cons ip rest ih =>
    cases ip
    simp [mkLinhas, ih]

theorem mkLinhas_map_quantidade (novoId now k : ℤ) (resolved : List (Item × ProdRow)) :
    (mkLinhas novoId now k resolved).map (fun r => r.quantidade) =
      resolved.map fun ip => ip.1.qtd := by
  induction resolved generalizing k with
  | nil => rfl
  | cons ip rest ih =>
    cases ip
    simp [mkLinhas, ih]

theorem mkLinhas_vlTotal (novoId now k : ℤ) (resolved : List (Item × ProdRow)) :
    ∀ r ∈ mkLinhas novoId now k resolved, r.vlTotal = r.quantidade * r.unitario := by
  induction resolved generalizing k with
  | nil => intro r hr; cases hr
  | cons ip rest ih =>
    cases ip
    intro r hr
    rcases List.mem_cons.mp hr with rfl | hr'
    · rfl
    · exact ih (k + 1) r hr'

theorem mkLinhas_sum (novoId now k : ℤ) (resolved : List (Item × ProdRow)) :
    ((mkLinhas novoId now k resolved).map fun r => r.quantidade * r.unitario).sum =
      (resolved.map fun ip => ip.1.qtd * ip.1.preco).sum := by
  induction resolved generalizing k with
  | nil => rfl
  | cons ip rest ih =>
    cases ip
    simp [mkLinhas, ih]

theorem cursorPass_eq_true {since : ℤ} {p : ProdRow} :
    cursorPass since p = true ↔
      since < p.dataAlteracao ∧ p.cbarra ≠ none ∧ p.cbarra ≠ some "" := by
  simp [cursorPass]

theorem mem_skus_joined (pass : ProdRow → Bool) (ps : List ProdRow)
    (ls : List LojaRow) (sku : String) :
    sku ∈ skusOf (joinedRows pass ps ls) ↔
      ∃ p ∈ ps, pass p = true ∧
        ∃ l ∈ ls, l.codigo = p.codigo ∧ p.cbarra = some sku := by
  simp only [skusOf, List.mem_dedup, List.mem_filterMap, joinedRows,
    List.mem_flatMap, List.mem_filter, List.mem_map, decide_eq_true_eq]
  constructor
  · rintro ⟨pr, ⟨p, ⟨hp, hpass⟩, l, ⟨hl, hcod⟩, rfl⟩, hcb⟩
    exact ⟨p, hp, hpass, l, hl, hcod, hcb⟩
  · rintro ⟨p, hp, hpass, l, hl, hcod, hcb⟩
    exact ⟨(p, l), ⟨p, ⟨hp, hpass⟩, l, ⟨hl, hcod⟩, rfl⟩, hcb⟩

theorem exists_mem_detectWith (pass : ProdRow → Bool) (ps : List ProdRow)
    (ls : List LojaRow) (sku : String) :
    (∃ u ∈ detectWith pass ps ls, u.sku = sku) ↔
      sku ∈ skusOf (joinedRows pass ps ls) := by
  constructor
  · rintro ⟨u, hu, rfl⟩
    rcases List.mem_map.mp hu with ⟨s, hs, rfl⟩
    exact hs
  · intro hs
    exact ⟨aggregate (groupOf pass ps ls sku) sku, List.mem_map_of_mem _ hs, rfl⟩

theorem itensTotal_eq_sum (itens : List Item) :
    itensTotal itens = (itens.map fun i => i.qtd * i.preco).sum := by
  simpa using foldl_add_map_sum (fun i => i.qtd * i.preco) itens 0

theorem total_eq_sum_linhas {ps : List ProdRow} {itens : List Item}
    {resolved : List (Item × ProdRow)}
    (hres : resolveItens ps itens = .ok resolved) (novoId now : ℤ) :
    itensTotal itens =
      ((mkLinhas novoId now 1 resolved).map fun r => r.quantidade * r.unitario).sum := by
  rw [mkLinhas_sum, itensTotal_eq_sum, ← resolveItens_ok_fst hres, List.map_map]
  rfl

theorem linhas_map_unitario_itens {ps : List ProdRow} {itens : List Item}
    {resolved : List (Item × ProdRow)}
    (hres : resolveItens ps itens = .ok resolved) (novoId now : ℤ) :
    (mkLinhas novoId now 1 resolved).map (fun r => r.unitario) =
      itens.map fun i => i.preco := by
  rw [mkLinhas_map_unitario, ← resolveItens_ok_fst hres, List.map_map]
  rfl

theorem linhas_map_quantidade_itens {ps : List ProdRow} {itens : List Item}
    {resolved : List (Item × ProdRow)}
    (hres : resolveItens ps itens = .ok resolved) (novoId now : ℤ) :
    (mkLinhas novoId now 1 resolved).map (fun r => r.quantidade) =
      itens.map fun i => i.qtd := by
  rw [mkLinhas_map_quantidade, ← resolveItens_ok_fst hres, List.map_map]
  rfl

/-! ## Claims -/

/-- C1: for a cycle whose detection query returns a recordset, the persisted
cursor afterwards is the timestamp captured before the query ran — exactly
when the batch is empty or the publish succeeded — and is the unchanged
previous file when a non-empty batch fails to publish. -/
theorem cursor_advance_policy (file : CursorFile) (now : ℤ)
    (batch : List ProductUpdate) (publishOk : Bool) :
    monitorarMudancas file now (.ok batch) publishOk true =
      if batch.isEmpty || publishOk then .parsed (.valid now) else file := by
  cases batch <;> cases publishOk <;>
    simp [monitorarMudancas, updateLastSyncTime]

/-- C4 (amended): the entry guard of `monitorarMudancas` checks only that
the pool is connected; a tick with a connected pool always starts a new
cycle, even while another cycle is still in flight, so sync cycles can
overlap. -/
theorem tick_guard_checks_only_pool (s : LoopState) :
    (s.poolConnected = true →
      loopStep s .tick = { s with inFlight := s.inFlight + 1 }) ∧
    (s.poolConnected = false → loopStep s .tick = s) := by
  constructor <;> intro h <;> simp [loopStep, h]

/-- C4 counterexample: from a connected pool with no cycle in flight, a tick
leaves one cycle in flight, and a second tick arriving before it completes
leaves two cycles in flight simultaneously — the claimed single-flight
skip does not exist. -/
theorem overlapping_ticks_reachable :
    (loopRun ⟨true, 0⟩ [.tick]).inFlight = 1 ∧
    (loopRun ⟨true, 0⟩ [.tick, .tick]).inFlight = 2 := ⟨rfl, rfl⟩

/-- C9 (amended): `getLastSyncTime` falls back to `now` minus 60 seconds
when the cursor file is absent or its read or JSON parse throws; a file
that parses as JSON returns whatever `new Date` made of its `lastSync`
field, Invalid Date included. -/
theorem getLastSyncTime_policy (now : ℤ) (d : JsDate) :
    getLastSyncTime .absent now = .valid (now - 60000) ∧
    getLastSyncTime .unreadable now = .valid (now - 60000) ∧
    getLastSyncTime (.parsed d) now = d := ⟨rfl, rfl, rfl⟩

/-- C9 counterexample: a readable JSON cursor file whose `lastSync` cannot
be interpreted as a timestamp yields the Invalid Date, not the bootstrap
default of one minute before now. -/
theorem getLastSyncTime_invalid_not_default :
    getLastSyncTime (.parsed .invalid) 1000000 = .invalid ∧
    getLastSyncTime (.parsed .invalid) 1000000 ≠ .valid (1000000 - 60000) :=
  ⟨rfl, by decide⟩

/-- C7 (amended): in the part_000 handler, a request with an absent
customer, an absent items field or an empty items list is rejected with the
400 validation error before any store operation — the operation log is
empty and the store is untouched.  (The agente.js variant has no such
validation; see the counterexample.) -/
theorem invalid_request_rejected (db : Db) (now : ℤ) (req : OrderRequest)
    (h : req.cliente = none ∨ req.itens = none ∨ req.itens = some []) :
    criarPedido db now req =
      (db, [], .badRequest "Dados inválidos (cliente ou itens ausentes)") := by
  rcases h with h | h | h
  · cases hi : req.itens <;> simp [criarPedido, h, hi]
  · cases hc : req.cliente <;> simp [criarPedido, h, hc]
  · cases hc : req.cliente <;> simp [criarPedido, h, hc]

/-- C7 witness: the part_000 handler rejects a concrete empty-items request
with no store operation. -/
theorem invalid_request_rejected_witness :
    criarPedido dbA 7 reqVazio =
      (dbA, [], .badRequest "Dados inválidos (cliente ou itens ausentes)") :=
  invalid_request_rejected dbA 7 reqVazio (Or.inr (Or.inr rfl))

/-- C7 counterexample: the agente.js handler, given a request with a present
customer and an empty items list, opens a transaction and commits a
zero-line order header — store operations are performed and a row persists,
refuting the claim for that variant. -/
theorem agente_commits_without_validation :
    (criarPedidoAgente dbA 7 reqVazio).2.1 =
      [.txBegin, .queryIds, .insertHeader, .txCommit] ∧
    (criarPedidoAgente dbA 7 reqVazio).1.orcperson ≠ [] ∧
    (criarPedidoAgente dbA 7 reqVazio).2.2 = .success 1 := by decide

/-- C8: every product in a batch produced by the sync query (either
variant's `WHERE` predicate) has a non-negative `total_stock`, and that
stock equals the sum of exactly the non-negative location stocks of its
group — each negative location stock contributes zero. -/
theorem batch_stock_clamped (pass : ProdRow → Bool) (ps : List ProdRow)
    (ls : List LojaRow) (u : ProductUpdate) (hu : u ∈ detectWith pass ps ls) :
    0 ≤ u.total_stock ∧
    u.total_stock =
      (((groupOf pass ps ls u.sku).map fun pr => pr.2.estAtual).filter
        fun x => decide (0 ≤ x)).sum := by
  rcases List.mem_map.mp hu with ⟨sku, hsku, rfl⟩
  have key := map_clamp_sum ((groupOf pass ps ls sku).map fun pr => pr.2.estAtual)
  rw [List.map_map] at key
  constructor
  · exact key.1
  · exact key.2

/-- C8 witness: a concrete batch row over one positive-stock and one
negative-stock location keeps the positive stock and drops the negative
one. -/
theorem batch_stock_clamped_witness :
    0 ≤ uA.total_stock ∧
    uA.total_stock =
      (((groupOf (cursorPass 0) [prodA] [lojaA, lojaNeg] uA.sku).map
        fun pr => pr.2.estAtual).filter fun x => decide (0 ≤ x)).sum :=
  batch_stock_clamped (cursorPass 0) [prodA] [lojaA, lojaNeg] uA (by decide)

/-- C5 (amended): part_000's detection query returns one row per sku, and a
sku appears in its output exactly when some product row carrying that sku —
non-missing and non-empty — was modified strictly after `since` and joins at
least one location row.  (The agente.js variant's query is instead a fixed
five-second window independent of any cursor; see the counterexample.) -/
theorem detect_exact (ps : List ProdRow) (ls : List LojaRow) (since : ℤ)
    (sku : String) :
    ((detect ps ls since).map fun u => u.sku).Nodup ∧
    ((∃ u ∈ detect ps ls since, u.sku = sku) ↔
      ∃ p ∈ ps, ∃ l ∈ ls, l.codigo = p.codigo ∧ p.cbarra = some sku ∧
        sku ≠ "" ∧ since < p.dataAlteracao) := by
  constructor
  · have h : ((detect ps ls since).map fun u => u.sku) =
        skusOf (joinedRows (cursorPass since) ps ls) := by
      simp only [detect, detectWith, List.map_map]
      exact List.map_id' _
    rw [h]
    exact List.nodup_dedup _
  · rw [detect, exists_mem_detectWith, mem_skus_joined]
    constructor
    · rintro ⟨p, hp, hpass, l, hl, hcod, hcb⟩
      rcases cursorPass_eq_true.mp hpass with ⟨hdt, _, hnemp⟩
      refine ⟨p, hp, l, hl, hcod, hcb, ?_, hdt⟩
      intro hse
      exact hnemp (hse ▸ hcb)
    · rintro ⟨p, hp, l, hl, hcod, hcb, hsne, hdt⟩
      refine ⟨p, hp, cursorPass_eq_true.mpr ⟨hdt, ?_, ?_⟩, l, hl, hcod, hcb⟩
      · rw [hcb]
        simp
      · rw [hcb]
        simp [hsne]

/-- C5 counterexample: a product modified at t = 50000, with the cursor at
0, is in part_000's batch but absent from the agente.js query evaluated at
now = 100000 — that variant is a fixed sliding window (with `>=`), not a
cursor-driven strictly-greater filter. -/
theorem window_query_not_cursor_driven :
    detect [prodA] [lojaA] 0 = [⟨"A", "Prod A", 7, 9⟩] ∧
    detectAgente [prodA] [lojaA] 100000 = [] ∧
    (0 : ℤ) < prodA.dataAlteracao := by decide

/-- C3: a validated order request with at least one item whose sku does not
resolve leaves the store exactly as it was — the rollback discards the
header and all lines — and the caller's 422 error names an offending
(unresolvable) sku from the request. -/
theorem bad_sku_commits_nothing (db : Db) (now : ℤ) (req : OrderRequest)
    (c : Cliente) (itens : List Item)
    (hc : req.cliente = some c) (hi : req.itens = some itens)
    (hbad : ∃ i ∈ itens, lookupProduto db.produtos i.sku = none) :
    (criarPedido db now req).1 = db ∧
    ∃ sku, (∃ i ∈ itens, i.sku = sku ∧ lookupProduto db.produtos sku = none) ∧
      (criarPedido db now req).2.2 =
        .unprocessable "Não foi possível processar o pedido"
          ("Produto não encontrado ou inativo: " ++ sku) := by
  rcases resolveItens_error_of_bad hbad with ⟨sku, herr, hwit⟩
  have hne : itens.isEmpty = false := by
    rcases hbad with ⟨i, hi', _⟩
    cases itens
    · cases hi'
    · rfl
  refine ⟨?_, sku, hwit, ?_⟩
  · simp [criarPedido, hc, hi, hne, herr]
  · simp [criarPedido, hc, hi, hne, herr]

/-- C3 witness: a concrete two-item request whose second sku is unknown
commits nothing and is answered with the 422 error naming that sku. -/
theorem bad_sku_commits_nothing_witness :
    (criarPedido dbA 7 reqBad).1 = dbA ∧
    ∃ sku, (∃ i ∈ [itemA2, itemZZ], i.sku = sku ∧
        lookupProduto dbA.produtos sku = none) ∧
      (criarPedido dbA 7 reqBad).2.2 =
        .unprocessable "Não foi possível processar o pedido"
          ("Produto não encontrado ou inativo: " ++ sku) :=
  bad_sku_commits_nothing dbA 7 reqBad ⟨some "X"⟩ [itemA2, itemZZ] rfl rfl
    ⟨itemZZ, by decide, by decide⟩

/-- C6: whichever variant handles it, a committed order appends exactly one
header and one line per item; the header's gross and net totals equal the
sum over the appended lines of quantity times unit price; each line's
total equals its quantity times its unit price; and the lines carry the
caller-supplied quantities and unit prices in request order. -/
theorem committed_total_exact (db : Db) (now : ℤ) (req : OrderRequest)
    (itens : List Item) (hi : req.itens = some itens) :
    (∀ db1 ops1 oid, criarPedido db now req = (db1, ops1, .success oid) →
      ∃ header linhas,
        db1.orcperson = db.orcperson ++ [header] ∧
        db1.orcpersoni = db.orcpersoni ++ linhas ∧
        header.totalBruto = ((linhas.map fun r => r.quantidade * r.unitario)).sum ∧
        header.totalLiquido = header.totalBruto ∧
        (∀ r ∈ linhas, r.vlTotal = r.quantidade * r.unitario) ∧
        linhas.map (fun r => r.unitario) = itens.map (fun i => i.preco) ∧
        linhas.map (fun r => r.quantidade) = itens.map (fun i => i.qtd)) ∧
    (∀ db2 ops2 oid, criarPedidoAgente db now req = (db2, ops2, .success oid) →
      ∃ header linhas,
        db2.orcperson = db.orcperson ++ [header] ∧
        db2.orcpersoni = db.orcpersoni ++ linhas ∧
        header.totalBruto = ((linhas.map fun r => r.quantidade * r.unitario)).sum ∧
        header.totalLiquido = header.totalBruto ∧
        (∀ r ∈ linhas, r.vlTotal = r.quantidade * r.unitario) ∧
        linhas.map (fun r => r.unitario) = itens.map (fun i => i.preco) ∧
        linhas.map (fun r => r.quantidade) = itens.map (fun i => i.qtd)) := by
  constructor
  · intro db1 ops1 oid h
    cases hc : req.cliente with
    | none => simp [criarPedido, hc, hi] at h
    | some c =>
      cases hemp : itens.isEmpty with
      | true => simp [criarPedido, hc, hi, hemp] at h
      | false =>
        cases hres : resolveItens db.produtos itens with
        | error sku => simp [criarPedido, hc, hi, hemp, hres] at h
        | ok resolved =>
          simp only [criarPedido, hc, hi, hemp, hres, Bool.false_eq_true,
            if_false, Prod.mk.injEq] at h
          obtain ⟨hdb, -, -⟩ := h
          subst hdb
          refine ⟨mkHeader (proximoId db.orcperson) (proximaSeq db.orcperson) now
            (nomeCliente000 c) "INTEGRACAO" (itensTotal itens),
            mkLinhas (proximoId db.orcperson) now 1 resolved,
            rfl, rfl, total_eq_sum_linhas hres _ now, rfl,
            mkLinhas_vlTotal _ now 1 resolved,
            linhas_map_unitario_itens hres _ now,
            linhas_map_quantidade_itens hres _ now⟩
  · intro db2 ops2 oid h
    cases hres : resolveItens db.produtos itens with
    | error sku => simp [criarPedidoAgente, hi, hres] at h
    | ok resolved =>
      cases hc : req.cliente with
      | none => simp [criarPedidoAgente, hc, hi, hres] at h
      | some c =>
        simp only [criarPedidoAgente, hc, hi, hres, Prod.mk.injEq] at h
        obtain ⟨hdb, -, -⟩ := h
        subst hdb
        refine ⟨mkHeader (proximoId db.orcperson) (proximaSeq db.orcperson) now
          (nomeClienteAg c) "SITE" (itensTotal itens),
          mkLinhas (proximoId db.orcperson) now 1 resolved,
          rfl, rfl, total_eq_sum_linhas hres _ now, rfl,
          mkLinhas_vlTotal _ now 1 resolved,
          linhas_map_unitario_itens hres _ now,
          linhas_map_quantidade_itens hres _ now⟩

/-- C6 witness: the concrete one-item order at quantity 2 and unit price 10
commits, in either variant, a header totalling 20 with one line of total
20. -/
theorem committed_total_exact_witness :
    (∃ header linhas,
      dbPedidoA.orcperson = dbA.orcperson ++ [header] ∧
      dbPedidoA.orcpersoni = dbA.orcpersoni ++ linhas ∧
      header.totalBruto = ((linhas.map fun r => r.quantidade * r.unitario)).sum ∧
      header.totalLiquido = header.totalBruto ∧
      (∀ r ∈ linhas, r.vlTotal = r.quantidade * r.unitario) ∧
      linhas.map (fun r => r.unitario) = [itemA2].map (fun i => i.preco) ∧
      linhas.map (fun r => r.quantidade) = [itemA2].map (fun i => i.qtd)) ∧
    (∃ header linhas,
      dbPedidoAgA.orcperson = dbA.orcperson ++ [header] ∧
      dbPedidoAgA.orcpersoni = dbA.orcpersoni ++ linhas ∧
      header.totalBruto = ((linhas.map fun r => r.quantidade * r.unitario)).sum ∧
      header.totalLiquido = header.totalBruto ∧
      (∀ r ∈ linhas, r.vlTotal = r.quantidade * r.unitario) ∧
      linhas.map (fun r => r.unitario) = [itemA2].map (fun i => i.preco) ∧
      linhas.map (fun r => r.quantidade) = [itemA2].map (fun i => i.qtd)) :=
  ⟨(committed_total_exact dbA 7 reqA [itemA2] rfl).1 dbPedidoA opsA 1 (by decide),
   (committed_total_exact dbA 7 reqA [itemA2] rfl).2 dbPedidoAgA opsA 1 (by decide)⟩

/-- C10 (amended): on a request with a present customer whose name is
non-empty and unchanged by 50-character truncation, a non-empty item list
and fully resolvable skus, the two handlers issue the same store operations,
return the same response, and persist identical line rows and identical
headers except for the `NOMEUSUARIO` column (`INTEGRACAO` versus `SITE`).
On other inputs they genuinely differ; see the counterexample. -/
theorem variants_agree_modulo_nome (db : Db) (now : ℤ) (req : OrderRequest)
    (c : Cliente) (n : String) (itens : List Item)
    (resolved : List (Item × ProdRow))
    (hc : req.cliente = some c) (hn : c.nome = some n) (hne : n ≠ "")
    (htake : n.take 50 = n) (hi : req.itens = some itens)
    (hnil : itens.isEmpty = false)
    (hok : resolveItens db.produtos itens = .ok resolved) :
    (criarPedido db now req).2 = (criarPedidoAgente db now req).2 ∧
    (criarPedido db now req).1.orcpersoni = (criarPedidoAgente db now req).1.orcpersoni ∧
    (criarPedido db now req).1.orcperson =
      db.orcperson ++ [mkHeader (proximoId db.orcperson) (proximaSeq db.orcperson)
        now n "INTEGRACAO" (itensTotal itens)] ∧
    (criarPedidoAgente db now req).1.orcperson =
      db.orcperson ++ [mkHeader (proximoId db.orcperson) (proximaSeq db.orcperson)
        now n "SITE" (itensTotal itens)] := by
  have h000 : nomeCliente000 c = n := by
    simp [nomeCliente000, hn, hne, htake]
  have hag : nomeClienteAg c = n := by
    simp [nomeClienteAg, hn, hne]
  refine ⟨?_, ?_, ?_, ?_⟩ <;>
    simp [criarPedido, criarPedidoAgente, hc, hi, hnil, hok, h000, hag]

/-- C10 witness: on the concrete one-item request with customer name
"Joao", the two handlers agree on response, operations and line rows, and
their headers differ only in `NOMEUSUARIO`. -/
theorem variants_agree_modulo_nome_witness :
    (criarPedido dbA 7 reqA).2 = (criarPedidoAgente dbA 7 reqA).2 ∧
    (criarPedido dbA 7 reqA).1.orcpersoni = (criarPedidoAgente dbA 7 reqA).1.orcpersoni ∧
    (criarPedido dbA 7 reqA).1.orcperson =
      dbA.orcperson ++ [mkHeader (proximoId dbA.orcperson) (proximaSeq dbA.orcperson)
        7 "Joao" "INTEGRACAO" (itensTotal [itemA2])] ∧
    (criarPedidoAgente dbA 7 reqA).1.orcperson =
      dbA.orcperson ++ [mkHeader (proximoId dbA.orcperson) (proximaSeq dbA.orcperson)
        7 "Joao" "SITE" (itensTotal [itemA2])] :=
  variants_agree_modulo_nome dbA 7 reqA ⟨some "Joao"⟩ "Joao" [itemA2]
    [(itemA2, prodA)] rfl rfl (by decide) (by decide) rfl rfl rfl

/-- Every state reachable under the locked (part_000) allocation discipline
satisfies the allocation invariant. -/
theorem allocInv_of_reach {s : AllocSys} (h : AReach true s) : AllocInv s := by
  induction h with
  | init rows₀ => simp [AllocInv]
  | @step s s' hr hst ih =>
    obtain ⟨i1, i2, i3, i4, i5, i6, i7, i8⟩ := ih
    cases hst with
    | begin1 h0 =>
      refine ⟨by simp, fun _ p hp => hp, i3, by simp, i5, by simp, i7, by simp⟩
    | begin2 h0 =>
      refine ⟨by simp, i2, fun _ p hp => hp, i4, by simp, i6, by simp, by simp⟩
    | alloc1 h1 hlock =>
      have h2 : s.pc2 ≠ 2 := hlock rfl
      refine ⟨by simpa using h2, fun _ => i2 (by omega), i3, fun _ => rfl, i5,
        by simp, i7, by simp⟩
    | alloc2 h1 hlock =>
      have h2 : s.pc1 ≠ 2 := hlock rfl
      refine ⟨by simpa using h2, i2, fun _ => i3 (by omega), i4, fun _ => rfl,
        i6, by simp, by simp⟩
    | commit1 h2 =>
      have hpc2 : s.pc2 ≠ 2 := fun hp2 => i1 ⟨h2, hp2⟩
      have hsnap : ∀ p ∈ s.snap1, p ∈ s.rows := i2 (by omega)
      have halloc : s.alloc1 = nextPair s.rows := i4 h2
      refine ⟨by simp, ?_, ?_, by simp, fun hp2 => absurd hp2 hpc2, ?_, ?_, ?_⟩
      · exact fun _ p hp => List.mem_cons_of_mem _ (hsnap p hp)
      · exact fun hp p hp' => List.mem_cons_of_mem _ (i3 hp p hp')
      · intro _
        refine ⟨List.mem_cons_self _ _, fun p hp => ?_⟩
        have := lt_nextPair (hsnap p hp)
        rw [halloc]
        exact this
      · intro hp2
        rcases i7 hp2 with ⟨hmem, hlt⟩
        exact ⟨List.mem_cons_of_mem _ hmem, hlt⟩
      · intro _ hp2
        rcases i7 hp2 with ⟨hmem, -⟩
        have := lt_nextPair hmem
        rw [halloc]
        exact ⟨(ne_of_lt this.1).symm, (ne_of_lt this.2).symm⟩
    | commit2 h2 =>
      have hpc1 : s.pc1 ≠ 2 := fun hp1 => i1 ⟨hp1, h2⟩
      have hsnap : ∀ p ∈ s.snap2, p ∈ s.rows := i3 (by omega)
      have halloc : s.alloc2 = nextPair s.rows := i5 h2
      refine ⟨by simp, ?_, ?_, fun hp1 => absurd hp1 hpc1, by simp, ?_, ?_, ?_⟩
      · exact fun hp p hp' => List.mem_cons_of_mem _ (i2 hp p hp')
      · exact fun _ p hp => List.mem_cons_of_mem _ (hsnap p hp)
      · intro hp1
        rcases i6 hp1 with ⟨hmem, hlt⟩
        exact ⟨List.mem_cons_of_mem _ hmem, hlt⟩
      · intro _
        refine ⟨List.mem_cons_self _ _, fun p hp => ?_⟩
        have := lt_nextPair (hsnap p hp)
        rw [halloc]
        exact this
      · intro hp1 _
        rcases i6 hp1 with ⟨hmem, -⟩
        have := lt_nextPair hmem
        rw [halloc]
        exact ⟨ne_of_lt this.1, ne_of_lt this.2⟩

/-- C2 (amended): under part_000's allocation discipline — the `UPDLOCK,
HOLDLOCK` read serializes concurrent allocators — whenever both concurrent
ingestion transactions have committed, their `(id, sequence)` pairs are
disjoint in both components, and each pair is strictly greater, in both
components, than every pair that existed in the store when its transaction
began.  (The agente.js variant's plain `MAX` read has no such lock; see the
counterexample.) -/
theorem locked_allocation_correct (s : AllocSys) (hr : AReach true s)
    (h1 : s.pc1 = 3) (h2 : s.pc2 = 3) :
    (s.alloc1.1 ≠ s.alloc2.1 ∧ s.alloc1.2 ≠ s.alloc2.2) ∧
    (∀ p ∈ s.snap1, p.1 < s.alloc1.1 ∧ p.2 < s.alloc1.2) ∧
    (∀ p ∈ s.snap2, p.1 < s.alloc2.1 ∧ p.2 < s.alloc2.2) := by
  obtain ⟨-, -, -, -, -, i6, i7, i8⟩ := allocInv_of_reach hr
  exact ⟨i8 h1 h2, (i6 h1).2, (i7 h2).2⟩

/-- C2 witness: a concrete locked run — transaction 1 begins, allocates
`(1, 1)` and commits; transaction 2 begins, allocates `(2, 2)` and commits
— reaches a state where the theorem applies. -/
theorem locked_allocation_correct_witness :
    (sLocked.alloc1.1 ≠ sLocked.alloc2.1 ∧ sLocked.alloc1.2 ≠ sLocked.alloc2.2) ∧
    (∀ p ∈ sLocked.snap1, p.1 < sLocked.alloc1.1 ∧ p.2 < sLocked.alloc1.2) ∧
    (∀ p ∈ sLocked.snap2, p.1 < sLocked.alloc2.1 ∧ p.2 < sLocked.alloc2.2) :=
  locked_allocation_correct sLocked
    (by
      have t0 : AReach true ⟨[], 0, 0, [], [], (0, 0), (0, 0)⟩ := AReach.init []
      have t1 := AReach.step t0 (AStep.begin1 _ rfl)
      have t2 := AReach.step t1 (AStep.alloc1 _ rfl (fun _ => by decide))
      have t3 := AReach.step t2 (AStep.commit1 _ rfl)
      have t4 := AReach.step t3 (AStep.begin2 _ rfl)
      have t5 := AReach.step t4 (AStep.alloc2 _ rfl (fun _ => by decide))
      have t6 := AReach.step t5 (AStep.commit2 _ rfl)
      exact t6)
    rfl rfl

/-- C2 counterexample: without the locking read (the agente.js variant),
the interleaving in which both transactions perform their allocation read
before either commits is reachable, and both commit the same `(1, 1)`
pair — two concurrently-ingested orders share their id and sequence. -/
theorem unlocked_allocation_collides :
    AReach false sUnlocked ∧ sUnlocked.pc1 = 3 ∧ sUnlocked.pc2 = 3 ∧
    sUnlocked.alloc1 = sUnlocked.alloc2 ∧
    sUnlocked.rows = [(1, 1), (1, 1)] := by
  refine ⟨?_, rfl, rfl, rfl, rfl⟩
  have t0 : AReach false ⟨[], 0, 0, [], [], (0, 0), (0, 0)⟩ := AReach.init []
  have t1 := AReach.step t0 (AStep.begin1 _ rfl)
  have t2 := AReach.step t1 (AStep.begin2 _ rfl)
  have t3 := AReach.step t2 (AStep.alloc1 _ rfl (fun h => by cases h))
  have t4 := AReach.step t3 (AStep.alloc2 _ rfl (fun h => by cases h))
  have t5 := AReach.step t4 (AStep.commit1 _ rfl)
  have t6 := AReach.step t5 (AStep.commit2 _ rfl)
  exact t6

/-- C10 counterexample: on a request whose customer name is the empty
string, both handlers commit, but part_000 stores the placeholder name
"CLIENTE WEB" while agente.js stores "CLIENTE E-COMMERCE" — the persisted
header rows differ, so the handlers are not behaviourally equal. -/
theorem variants_differ_on_blank_name :
    criarPedido dbA 7 reqNomeVazio ≠ criarPedidoAgente dbA 7 reqNomeVazio ∧
    (criarPedido dbA 7 reqNomeVazio).1.orcperson.map (fun r => r.nome) =
      ["CLIENTE WEB"] ∧
    (criarPedidoAgente dbA 7 reqNomeVazio).1.orcperson.map (fun r => r.nome) =
      ["CLIENTE E-COMMERCE"] := by decide

end Agente
